import Mathlib

/-!
Checkpoints (src/checkpoints.cpp)

A shallow embedding of the checkpoint table and of the functions built on it:
CheckBlock, GuessVerificationProgress, GetTotalBlocksEstimate, GetLastCheckpoint and
GetLatestHardenedCheckpoint.

Conventions of the embedding.
* int, int64 and the block-index counters are unbounded integers; uint256 is a natural number.
* double is read as exact rational arithmetic; a division whose divisor is zero has no value.
* The globals read by the functions (fTestNet, the -checkpoints argument) are passed explicitly,
  and so is the clock value read by time(NULL).
* A pointer result is an Option; NULL is none.
-/

set_option linter.dupNamespace false

namespace Checkpoints

/-! ## Data model -/

/-- A uint256 value, written as the number its hexadecimal literal denotes. -/
abbrev uint256 := Nat

/-- The type std::map<int, uint256>: the entries, in ascending order of key. -/
abbrev MapCheckpoints := List (Int × uint256)

/-- Insertion of one pair into the ordered map (std::map::insert): the pair goes to its place
in key order, and a pair whose key is already present is not inserted. -/
def MapCheckpoints.insert (m : MapCheckpoints) (k : Int) (v : uint256) : MapCheckpoints :=
  match m with
  | [] => [(k, v)]
  | (k0, v0) :: rest =>
    if k < k0 then (k, v) :: (k0, v0) :: rest
    else if k = k0 then (k0, v0) :: rest
    else (k0, v0) :: MapCheckpoints.insert rest k v

/-- The map built by boost::assign::map_list_of from the pairs in source order. -/
def map_list_of (l : List (Int × uint256)) : MapCheckpoints :=
  l.foldl (fun m e => MapCheckpoints.insert m e.1 e.2) []

/-- Lookup by key (std::map::find); none stands for the end iterator. -/
def MapCheckpoints.find (m : MapCheckpoints) (k : Int) : Option uint256 :=
  match m with
  | [] => none
  | (k0, v0) :: rest => if k0 = k then some v0 else MapCheckpoints.find rest k

/-- The entry with the greatest key (what rbegin() points to); none on an empty map, where
dereferencing rbegin() has no defined result. -/
def MapCheckpoints.rbegin (m : MapCheckpoints) : Option (Int × uint256) :=
  m.getLast?

/-- The struct CCheckpointData. -/
structure CCheckpointData where
  mapCheckpoints : MapCheckpoints
  nTimeLastCheckpoint : Int
  nTransactionsLastCheckpoint : Int
  fTransactionsPerDay : ℚ

/-- Modelled from the spec: the block-index node CBlockIndex, declared outside checkpoints.cpp.
The fields are those the spec lists (height, hash, cumulative transaction count, timestamp);
nChainTx and nTime are the two that checkpoints.cpp reads. -/
structure CBlockIndex where
  nHeight : Int
  hash : uint256
  nChainTx : Int
  nTime : Int
  deriving DecidableEq, Repr

/-- The type std::map<uint256, CBlockIndex*> of the caller: pairs of hash and node. -/
abbrev BlockIndexMap := List (uint256 × CBlockIndex)

/-- Lookup by hash in the block index (std::map::find); none stands for the end iterator. -/
def BlockIndexMap.find (m : BlockIndexMap) (hash : uint256) : Option CBlockIndex :=
  match m with
  | [] => none
  | (k, v) :: rest => if k = hash then some v else BlockIndexMap.find rest hash

/-- The ambient state the functions read: the global fTestNet, and fCheckpoints, the value of
GetBoolArg("-checkpoints", true). -/
structure Env where
  fTestNet : Bool
  fCheckpoints : Bool
  deriving DecidableEq, Repr

/-! ## The tables -/

/-- The constant fSigcheckVerificationFactor. -/
def fSigcheckVerificationFactor : ℚ := 5

/-- The pairs given to map_list_of for the main network, in source order. -/
def mapCheckpointsList : List (Int × uint256) :=
  [ (0, 0x00000c31cbfa287f2bc7c6c5634475883af72c6dd47cd3d27341bc668f731c81),
    (1, 0x00000e42c6e6ec223410e7916d11d9483e24933594aed7d326338cd32381f334),
    (4700, 0x00000000bd96f25c5fe68b003e665445a94a050182e23c37022438f9caffe472),
    (31124, 0x000000001f3316fd17ecb40019bfae299a5e7f40c8cea57bd3e34237c4c04638),
    (53233, 0x00000000fbcda674f094486c1684ca0cc99f537576b4d3445babe6ad21a23db2),
    (66437, 0x00000000b445027f5b4f117f5d2e76d3352cff67375ecf265dc1d5d9f157c239),
    (71621, 0x000000007c35a5ce3ef7c77f7aa535a88e1ed03b9793be4d46d9c462504e2aa1),
    (92490, 0x000000003050d117a6d410057be32506be8ad02a96c27e08dd3f7a41b8671ce7),
    (150000, 0x00000001b5e05ebcc219012b7c7832d28d86d3249e3387d8593e6c7148bb3547),
    (200000, 0x000000012d9d0aba3f4af54bbc2788efeb28d28d4b23a9923dec67d25d454394),
    (250000, 0x000000002c704d9fac463bcde288626d94e610ee288e21574b9919650f87d8c0),
    (300000, 0x000000086b931f20226dc9759ed7e6ea479fceec308812ecba1463be11837e4b),
    (350000, 0x000000023fc820dec0cd6c35fcf239e1c99145cd19c6a985199cf0bbc3ae07fd),
    (400000, 0x0000000088b3390955e9de9a802e8399e44290d16fd72f787c6f0af1b8d46899),
    (450000, 0x000002392b10bda48faddaf4b855ba51bcde527bf16c91131fa390ae8022fb7c),
    (500000, 0x000000c8d4e43f5579c728e870198ea236daddae7f6bea62003e993ccb657ac9) ]

/-- The static map mapCheckpoints. -/
def mapCheckpoints : MapCheckpoints := map_list_of mapCheckpointsList

/-- The static data. Its initializer lists three values for the four members: the map, then
1507133860 for nTimeLastCheckpoint, then 1000.0, which lands in nTransactionsLastCheckpoint
(the line that held the transaction count is commented out); fTransactionsPerDay, left without
an initializer, is zero. -/
def data : CCheckpointData :=
  { mapCheckpoints := mapCheckpoints
    nTimeLastCheckpoint := 1507133860
    nTransactionsLastCheckpoint := 1000
    fTransactionsPerDay := 0 }

/-- The pairs given to map_list_of for the test network. -/
def mapCheckpointsTestnetList : List (Int × uint256) :=
  [ (0, 0x332865499df77f269f1fa1c640075275abc3b452c21619bfe05f757a65a46c48) ]

/-- The static map mapCheckpointsTestnet. -/
def mapCheckpointsTestnet : MapCheckpoints := map_list_of mapCheckpointsTestnetList

/-- The static dataTestnet. -/
def dataTestnet : CCheckpointData :=
  { mapCheckpoints := mapCheckpointsTestnet
    nTimeLastCheckpoint := 1394545201
    nTransactionsLastCheckpoint := 0
    fTransactionsPerDay := 100 }

/-! ## The functions -/

/-- The function Checkpoints(): the data of the network selected by fTestNet. -/
def Checkpoints (env : Env) : CCheckpointData :=
  if env.fTestNet then dataTestnet else data

/-- The function CheckBlock. -/
def CheckBlock (env : Env) (nHeight : Int) (hash : uint256) : Bool :=
  if env.fTestNet then true
  else if !env.fCheckpoints then true
  else
    match MapCheckpoints.find (Checkpoints env).mapCheckpoints nHeight with
    | none => true
    | some stored => decide (hash = stored)

/-- Division of two exact values; there is no value when the divisor is zero. -/
def fdiv (a b : ℚ) : Option ℚ :=
  if b = 0 then none else some (a / b)

/-- The pair (fWorkBefore, fWorkAfter) that GuessVerificationProgress computes for a node,
from the checkpoint data and the clock value nNow. -/
def fWork (data : CCheckpointData) (nNow : Int) (pindex : CBlockIndex) : ℚ × ℚ :=
  if pindex.nChainTx ≤ data.nTransactionsLastCheckpoint then
    let nCheapBefore : ℚ := pindex.nChainTx
    let nCheapAfter : ℚ := ((data.nTransactionsLastCheckpoint - pindex.nChainTx : Int) : ℚ)
    let nExpensiveAfter : ℚ :=
      ((nNow - data.nTimeLastCheckpoint : Int) : ℚ) / 86400 * data.fTransactionsPerDay
    (nCheapBefore, nCheapAfter + nExpensiveAfter * fSigcheckVerificationFactor)
  else
    let nCheapBefore : ℚ := data.nTransactionsLastCheckpoint
    let nExpensiveBefore : ℚ := ((pindex.nChainTx - data.nTransactionsLastCheckpoint : Int) : ℚ)
    let nExpensiveAfter : ℚ :=
      ((nNow - pindex.nTime : Int) : ℚ) / 86400 * data.fTransactionsPerDay
    (nCheapBefore + nExpensiveBefore * fSigcheckVerificationFactor,
      nExpensiveAfter * fSigcheckVerificationFactor)

/-- The body of GuessVerificationProgress once the checkpoint data is chosen. -/
def GuessVerificationProgressWith (data : CCheckpointData) (nNow : Int)
    (pindex : Option CBlockIndex) : Option ℚ :=
  match pindex with
  | none => some 0
  | some p =>
    let w := fWork data nNow p
    fdiv w.1 (w.1 + w.2)

/-- The function GuessVerificationProgress; nNow is the value time(NULL) returns. -/
def GuessVerificationProgress (env : Env) (nNow : Int) (pindex : Option CBlockIndex) :
    Option ℚ :=
  GuessVerificationProgressWith (Checkpoints env) nNow pindex

/-- The function GetTotalBlocksEstimate. -/
def GetTotalBlocksEstimate (env : Env) : Option Int :=
  if env.fTestNet then some 0
  else if !env.fCheckpoints then some 0
  else (MapCheckpoints.rbegin (Checkpoints env).mapCheckpoints).map (fun e => e.1)

/-- The loop of GetLastCheckpoint over the entries in the order given: the node of the first
entry whose hash the block index holds. -/
def lastCheckpointLoop (entries : List (Int × uint256)) (mapBlockIndex : BlockIndexMap) :
    Option CBlockIndex :=
  match entries with
  | [] => none
  | i :: rest =>
    match BlockIndexMap.find mapBlockIndex i.2 with
    | some t => some t
    | none => lastCheckpointLoop rest mapBlockIndex

/-- The function GetLastCheckpoint: BOOST_REVERSE_FOREACH visits the map from the greatest
key down. -/
def GetLastCheckpoint (env : Env) (mapBlockIndex : BlockIndexMap) : Option CBlockIndex :=
  if env.fTestNet then none
  else if !env.fCheckpoints then none
  else lastCheckpointLoop (Checkpoints env).mapCheckpoints.reverse mapBlockIndex

/-- The function GetLatestHardenedCheckpoint. -/
def GetLatestHardenedCheckpoint (env : Env) : Option uint256 :=
  (MapCheckpoints.rbegin (Checkpoints env).mapCheckpoints).map (fun e => e.2)

/-- The environment of the main network with checkpoints enabled. -/
def mainEnabled : Env := { fTestNet := false, fCheckpoints := true }

/-- A block index that holds the blocks of the checkpoints at heights 0 and 1 and one block
that is no checkpoint. -/
def exampleBlockIndex : BlockIndexMap :=
  [ (0x00000c31cbfa287f2bc7c6c5634475883af72c6dd47cd3d27341bc668f731c81,
      { nHeight := 0
        hash := 0x00000c31cbfa287f2bc7c6c5634475883af72c6dd47cd3d27341bc668f731c81
        nChainTx := 1, nTime := 1387807823 }),
    (0x00000e42c6e6ec223410e7916d11d9483e24933594aed7d326338cd32381f334,
      { nHeight := 1
        hash := 0x00000e42c6e6ec223410e7916d11d9483e24933594aed7d326338cd32381f334
        nChainTx := 2, nTime := 1387808000 }),
    (12345, { nHeight := 2, hash := 12345, nChainTx := 3, nTime := 1387808100 }) ]

/-- A block index that holds no checkpoint block. -/
def strangerBlockIndex : BlockIndexMap :=
  [ (12345, { nHeight := 2, hash := 12345, nChainTx := 3, nTime := 1387808100 }) ]

/-- A block index that agrees with exampleBlockIndex on the checkpoint blocks and holds other
blocks besides, in another order. -/
def crowdedBlockIndex : BlockIndexMap :=
  [ (777, { nHeight := 7, hash := 777, nChainTx := 9, nTime := 1387809000 }),
    (0x00000e42c6e6ec223410e7916d11d9483e24933594aed7d326338cd32381f334,
      { nHeight := 1
        hash := 0x00000e42c6e6ec223410e7916d11d9483e24933594aed7d326338cd32381f334
        nChainTx := 2, nTime := 1387808000 }),
    (888, { nHeight := 8, hash := 888, nChainTx := 10, nTime := 1387809100 }),
    (0x00000c31cbfa287f2bc7c6c5634475883af72c6dd47cd3d27341bc668f731c81,
      { nHeight := 0
        hash := 0x00000c31cbfa287f2bc7c6c5634475883af72c6dd47cd3d27341bc668f731c81
        nChainTx := 1, nTime := 1387807823 }) ]

/-- A block index that holds the block of the test-network checkpoint. -/
def testnetBlockIndex : BlockIndexMap :=
  [ (0x332865499df77f269f1fa1c640075275abc3b452c21619bfe05f757a65a46c48,
      { nHeight := 0
        hash := 0x332865499df77f269f1fa1c640075275abc3b452c21619bfe05f757a65a46c48
        nChainTx := 1, nTime := 1394545201 }) ]

/-- A profile with the values the comments of the data initializer name: 125908 transactions
up to the last checkpoint and 1000 transactions per day after it. -/
def commentedData : CCheckpointData :=
  { mapCheckpoints := mapCheckpoints
    nTimeLastCheckpoint := 1507133860
    nTransactionsLastCheckpoint := 125908
    fTransactionsPerDay := 1000 }

/-! ## The cost model in the words of the specification -/

/-- The work before the target as the specification words it: n transactions at unit cost up
to the checkpoint count T, and five units for each transaction beyond it. -/
def specWorkBefore (T n : Int) : ℚ :=
  if n ≤ T then (n : ℚ) else (T : ℚ) + ((n : ℚ) - (T : ℚ)) * 5

/-- The work after the target as the specification words it, for a target with count n and
timestamp t, a profile (T, t0, d) and the clock value now. -/
def specWorkAfter (T t0 : Int) (d : ℚ) (n t now : Int) : ℚ :=
  if n ≤ T then ((T : ℚ) - (n : ℚ)) + (((now : ℚ) - (t0 : ℚ)) / 86400 * d) * 5
  else (((now : ℚ) - (t : ℚ)) / 86400 * d) * 5

/-! ## The checkpoint maps as ordered lists -/

theorem mapCheckpoints_eq : mapCheckpoints = mapCheckpointsList := by decide

theorem mapCheckpointsTestnet_eq : mapCheckpointsTestnet = mapCheckpointsTestnetList := by
  decide

theorem mapCheckpointsList_ascending :
    mapCheckpointsList.Pairwise (fun a b => a.1 < b.1) := by decide

theorem Checkpoints_mainEnabled : Checkpoints mainEnabled = data := rfl

theorem find_some_mem (m : MapCheckpoints) (k : Int) (v : uint256)
    (h : MapCheckpoints.find m k = some v) : (k, v) ∈ m := by
  induction m with
  | nil => simp [MapCheckpoints.find] at h
  | cons e rest ih =>
    obtain ⟨k0, v0⟩ := e
    by_cases hk : k0 = k
    · simp [MapCheckpoints.find, hk] at h
      simp [hk, h]
    · simp [MapCheckpoints.find, hk] at h
      exact List.mem_cons_of_mem _ (ih h)

theorem mem_find_of_ascending (m : MapCheckpoints) (k : Int) (v : uint256)
    (hm : m.Pairwise (fun a b => a.1 < b.1)) (h : (k, v) ∈ m) :
    MapCheckpoints.find m k = some v := by
  induction m with
  | nil => simp at h
  | cons e rest ih =>
    obtain ⟨k0, v0⟩ := e
    rw [List.pairwise_cons] at hm
    rcases List.mem_cons.mp h with heq | hin
    · cases heq
      simp [MapCheckpoints.find]
    · have hlt : k0 < k := hm.1 (k, v) hin
      have hne : ¬ k0 = k := fun e => by omega
      simp [MapCheckpoints.find, hne]
      exact ih hm.2 hin

/-! ## CheckBlock -/

/-- C1. On the main network with checkpoints enabled, at a height that is a key of the main
checkpoint table, CheckBlock accepts a hash exactly when it is the hash stored at that
height. -/
theorem CheckBlock_checkpoint_height_iff (nHeight : Int) (hash stored : uint256)
    (hkey : MapCheckpoints.find mapCheckpoints nHeight = some stored) :
    CheckBlock mainEnabled nHeight hash = true ↔ hash = stored := by
  have hk : MapCheckpoints.find data.mapCheckpoints nHeight = some stored := hkey
  simp [CheckBlock, mainEnabled, Checkpoints, hk]

/-- C1, at height 4700: the stored hash is accepted and another hash is rejected. -/
theorem CheckBlock_checkpoint_height_iff_witness :
    MapCheckpoints.find mapCheckpoints 4700
        = some 0x00000000bd96f25c5fe68b003e665445a94a050182e23c37022438f9caffe472 ∧
      (CheckBlock mainEnabled 4700
          0x00000000bd96f25c5fe68b003e665445a94a050182e23c37022438f9caffe472 = true ↔
        0x00000000bd96f25c5fe68b003e665445a94a050182e23c37022438f9caffe472
          = 0x00000000bd96f25c5fe68b003e665445a94a050182e23c37022438f9caffe472) ∧
      (CheckBlock mainEnabled 4700
          0x00000c31cbfa287f2bc7c6c5634475883af72c6dd47cd3d27341bc668f731c81 = true ↔
        0x00000c31cbfa287f2bc7c6c5634475883af72c6dd47cd3d27341bc668f731c81
          = 0x00000000bd96f25c5fe68b003e665445a94a050182e23c37022438f9caffe472) :=
  ⟨by decide,
   CheckBlock_checkpoint_height_iff 4700 _ _ (by decide),
   CheckBlock_checkpoint_height_iff 4700 _ _ (by decide)⟩

/-- C2. On the main network with checkpoints enabled, at a height that is not a key of the
active checkpoint table, CheckBlock accepts every hash. -/
theorem CheckBlock_no_checkpoint (nHeight : Int) (hash : uint256)
    (hkey : MapCheckpoints.find (Checkpoints mainEnabled).mapCheckpoints nHeight = none) :
    CheckBlock mainEnabled nHeight hash = true := by
  have hk : MapCheckpoints.find (Checkpoints mainEnabled).mapCheckpoints nHeight = none := hkey
  simp [CheckBlock, mainEnabled] at hk ⊢
  simp [hk]

/-- C2, at a negative height and at a height above 500000. -/
theorem CheckBlock_no_checkpoint_witness :
    MapCheckpoints.find (Checkpoints mainEnabled).mapCheckpoints (-1) = none ∧
      CheckBlock mainEnabled (-1) 0 = true ∧
      MapCheckpoints.find (Checkpoints mainEnabled).mapCheckpoints 500001 = none ∧
      CheckBlock mainEnabled 500001 12345 = true :=
  ⟨by decide, CheckBlock_no_checkpoint (-1) 0 (by decide),
   by decide, CheckBlock_no_checkpoint 500001 12345 (by decide)⟩

/-! ## GetLastCheckpoint -/

theorem lastCheckpointLoop_none (entries : List (Int × uint256)) (mapBlockIndex : BlockIndexMap)
    (habsent : ∀ e ∈ entries, BlockIndexMap.find mapBlockIndex e.2 = none) :
    lastCheckpointLoop entries mapBlockIndex = none := by
  induction entries with
  | nil => rfl
  | cons i rest ih =>
    have hi : BlockIndexMap.find mapBlockIndex i.2 = none := habsent i (List.mem_cons_self _ _)
    have hrest : ∀ e ∈ rest, BlockIndexMap.find mapBlockIndex e.2 = none :=
      fun e he => habsent e (List.mem_cons_of_mem _ he)
    simp [lastCheckpointLoop, hi, ih hrest]

theorem lastCheckpointLoop_first (entries : List (Int × uint256)) (mapBlockIndex : BlockIndexMap)
    (h : Int) (s : uint256) (node : CBlockIndex)
    (hdesc : entries.Pairwise (fun a b => b.1 < a.1))
    (hin : (h, s) ∈ entries)
    (hnode : BlockIndexMap.find mapBlockIndex s = some node)
    (habove : ∀ e ∈ entries, h < e.1 → BlockIndexMap.find mapBlockIndex e.2 = none) :
    lastCheckpointLoop entries mapBlockIndex = some node := by
  induction entries with
  | nil => simp at hin
  | cons i rest ih =>
    rw [List.pairwise_cons] at hdesc
    rcases List.mem_cons.mp hin with heq | hmem
    · subst heq
      simp [lastCheckpointLoop, hnode]
    · have hlt : h < i.1 := hdesc.1 (h, s) hmem
      have hi : BlockIndexMap.find mapBlockIndex i.2 = none :=
        habove i (List.mem_cons_self _ _) hlt
      have hrest : ∀ e ∈ rest, h < e.1 → BlockIndexMap.find mapBlockIndex e.2 = none :=
        fun e he => habove e (List.mem_cons_of_mem _ he)
      simp [lastCheckpointLoop, hi, ih hdesc.2 hmem hrest]

theorem GetLastCheckpoint_mainEnabled (mapBlockIndex : BlockIndexMap) :
    GetLastCheckpoint mainEnabled mapBlockIndex
      = lastCheckpointLoop mapCheckpointsList.reverse mapBlockIndex := by
  simp [GetLastCheckpoint, mainEnabled, Checkpoints, data, mapCheckpoints_eq]

/-- C3. On the main network with checkpoints enabled, GetLastCheckpoint returns the node that
the block index holds for the hash of the greatest-height checkpoint whose hash is a key of
the index, and returns none when no checkpoint hash is a key of the index. -/
theorem GetLastCheckpoint_greatest_indexed (mapBlockIndex : BlockIndexMap) :
    (∀ (h : Int) (s : uint256) (node : CBlockIndex),
        MapCheckpoints.find mapCheckpoints h = some s →
        BlockIndexMap.find mapBlockIndex s = some node →
        (∀ (h2 : Int) (s2 : uint256), MapCheckpoints.find mapCheckpoints h2 = some s2 →
          h < h2 → BlockIndexMap.find mapBlockIndex s2 = none) →
        GetLastCheckpoint mainEnabled mapBlockIndex = some node) ∧
    ((∀ (h : Int) (s : uint256), MapCheckpoints.find mapCheckpoints h = some s →
        BlockIndexMap.find mapBlockIndex s = none) →
      GetLastCheckpoint mainEnabled mapBlockIndex = none) := by
  have hasc := mapCheckpointsList_ascending
  have hdesc : mapCheckpointsList.reverse.Pairwise (fun a b => b.1 < a.1) :=
    List.pairwise_reverse.mpr hasc
  constructor
  · intro h s node hkey hnode habove
    rw [GetLastCheckpoint_mainEnabled]
    rw [mapCheckpoints_eq] at hkey habove
    refine lastCheckpointLoop_first _ _ h s node hdesc ?_ hnode ?_
    · exact List.mem_reverse.mpr (find_some_mem _ _ _ hkey)
    · intro e he hlt
      have hmem : (e.1, e.2) ∈ mapCheckpointsList := List.mem_reverse.mp he
      exact habove e.1 e.2 (mem_find_of_ascending _ _ _ hasc hmem) hlt
  · intro habsent
    rw [GetLastCheckpoint_mainEnabled]
    rw [mapCheckpoints_eq] at habsent
    refine lastCheckpointLoop_none _ _ ?_
    intro e he
    have hmem : (e.1, e.2) ∈ mapCheckpointsList := List.mem_reverse.mp he
    exact habsent e.1 e.2 (mem_find_of_ascending _ _ _ hasc hmem)

/-- C3, on an index holding the checkpoints of heights 0 and 1: the node of height 1 is
returned; on an index holding no checkpoint block the result is none. -/
theorem GetLastCheckpoint_greatest_indexed_witness :
    GetLastCheckpoint mainEnabled exampleBlockIndex
        = some { nHeight := 1
                 hash := 0x00000e42c6e6ec223410e7916d11d9483e24933594aed7d326338cd32381f334
                 nChainTx := 2, nTime := 1387808000 } ∧
      GetLastCheckpoint mainEnabled strangerBlockIndex = none :=
  ⟨(GetLastCheckpoint_greatest_indexed exampleBlockIndex).1 1
      0x00000e42c6e6ec223410e7916d11d9483e24933594aed7d326338cd32381f334 _
      (by decide) (by decide)
      (by
        intro h2 s2 hk hlt
        have hm := find_some_mem _ _ _ hk
        rw [mapCheckpoints_eq] at hm
        have hall : ∀ e ∈ mapCheckpointsList,
            1 < e.1 → BlockIndexMap.find exampleBlockIndex e.2 = none := by decide
        exact hall (h2, s2) hm hlt),
   (GetLastCheckpoint_greatest_indexed strangerBlockIndex).2
      (by
        intro h s hk
        have hm := find_some_mem _ _ _ hk
        rw [mapCheckpoints_eq] at hm
        have hall : ∀ e ∈ mapCheckpointsList,
            BlockIndexMap.find strangerBlockIndex e.2 = none := by decide
        exact hall (h, s) hm)⟩

/-! ## GuessVerificationProgress -/

theorem fdiv_of_ne_zero (a b : ℚ) (hb : b ≠ 0) : fdiv a b = some (a / b) := by
  simp [fdiv, hb]

theorem fdiv_eq_none_iff (a b : ℚ) : fdiv a b = none ↔ b = 0 := by
  by_cases hb : b = 0 <;> simp [fdiv, hb]

theorem fdiv_unit_interval (a b : ℚ) (ha : 0 ≤ a) (hb : 0 ≤ b) (hab : a + b ≠ 0) :
    ∃ r, fdiv a (a + b) = some r ∧ 0 ≤ r ∧ r ≤ 1 := by
  have hpos : 0 < a + b := lt_of_le_of_ne (add_nonneg ha hb) (Ne.symm hab)
  refine ⟨a / (a + b), fdiv_of_ne_zero _ _ hab, div_nonneg ha hpos.le, ?_⟩
  rw [div_le_one hpos]
  linarith

theorem ratio_le_ratio (x y u v : ℚ) (hx : 0 ≤ x) (hxy : x ≤ y) (hv : 0 ≤ v) (hvu : v ≤ u)
    (hxu : 0 < x + u) (hyv : 0 < y + v) : x / (x + u) ≤ y / (y + v) := by
  rw [div_le_div_iff₀ hxu hyv]
  nlinarith [mul_le_mul hxy hvu hv (le_trans hx hxy)]

theorem expensiveAfter_nonneg (d : ℚ) (hd : 0 ≤ d) (now x : Int) (h : x ≤ now) :
    (0 : ℚ) ≤ ((now : ℚ) - (x : ℚ)) / 86400 * d * 5 := by
  have hq : (x : ℚ) ≤ (now : ℚ) := by exact_mod_cast h
  have h1 : (0 : ℚ) ≤ ((now : ℚ) - (x : ℚ)) / 86400 := div_nonneg (by linarith) (by norm_num)
  have h2 : (0 : ℚ) ≤ ((now : ℚ) - (x : ℚ)) / 86400 * d := mul_nonneg h1 hd
  linarith

theorem expensiveAfter_antitone (d : ℚ) (hd : 0 ≤ d) (now x y : Int) (h : x ≤ y) :
    ((now : ℚ) - (y : ℚ)) / 86400 * d * 5 ≤ ((now : ℚ) - (x : ℚ)) / 86400 * d * 5 := by
  have hq : (x : ℚ) ≤ (y : ℚ) := by exact_mod_cast h
  have h1 : ((now : ℚ) - (y : ℚ)) / 86400 ≤ ((now : ℚ) - (x : ℚ)) / 86400 :=
    div_le_div_of_nonneg_right (by linarith) (by norm_num)
  have h2 : ((now : ℚ) - (y : ℚ)) / 86400 * d ≤ ((now : ℚ) - (x : ℚ)) / 86400 * d :=
    mul_le_mul_of_nonneg_right h1 hd
  linarith

theorem fWork_cases (data : CCheckpointData) (nNow : Int) (p : CBlockIndex) :
    fWork data nNow p =
      if p.nChainTx ≤ data.nTransactionsLastCheckpoint then
        ((p.nChainTx : ℚ),
          ((data.nTransactionsLastCheckpoint : ℚ) - (p.nChainTx : ℚ))
            + ((nNow : ℚ) - (data.nTimeLastCheckpoint : ℚ)) / 86400
                * data.fTransactionsPerDay * 5)
      else
        ((data.nTransactionsLastCheckpoint : ℚ)
            + ((p.nChainTx : ℚ) - (data.nTransactionsLastCheckpoint : ℚ)) * 5,
          ((nNow : ℚ) - (p.nTime : ℚ)) / 86400 * data.fTransactionsPerDay * 5) := by
  by_cases hc : p.nChainTx ≤ data.nTransactionsLastCheckpoint <;>
    simp [fWork, fSigcheckVerificationFactor, hc]

theorem fWork_nonneg (data : CCheckpointData)
    (hT : 0 ≤ data.nTransactionsLastCheckpoint) (hd : 0 ≤ data.fTransactionsPerDay)
    (nNow : Int) (p : CBlockIndex) (hn : 0 ≤ p.nChainTx)
    (hclock : data.nTimeLastCheckpoint ≤ nNow) (ht : p.nTime ≤ nNow) :
    0 ≤ (fWork data nNow p).1 ∧ 0 ≤ (fWork data nNow p).2 := by
  have hnq : (0 : ℚ) ≤ (p.nChainTx : ℚ) := by exact_mod_cast hn
  have hTq : (0 : ℚ) ≤ (data.nTransactionsLastCheckpoint : ℚ) := by exact_mod_cast hT
  rw [fWork_cases]
  by_cases hc : p.nChainTx ≤ data.nTransactionsLastCheckpoint
  · have hcq : (p.nChainTx : ℚ) ≤ (data.nTransactionsLastCheckpoint : ℚ) := by exact_mod_cast hc
    have hE := expensiveAfter_nonneg _ hd nNow _ hclock
    simp only [hc, if_true]
    exact ⟨hnq, by linarith⟩
  · have hcq : (data.nTransactionsLastCheckpoint : ℚ) < (p.nChainTx : ℚ) := by
      exact_mod_cast (not_le.mp hc)
    have hE := expensiveAfter_nonneg _ hd nNow _ ht
    simp only [hc, if_false]
    exact ⟨by linarith, hE⟩

theorem fWork_ratio_monotone (data : CCheckpointData)
    (hT : 0 ≤ data.nTransactionsLastCheckpoint) (hd : 0 ≤ data.fTransactionsPerDay)
    (nNow : Int) (a b : CBlockIndex) (hab : a.nChainTx ≤ b.nChainTx)
    (hclock : data.nTimeLastCheckpoint ≤ nNow)
    (htab : a.nTime ≤ b.nTime) (htb : b.nTime ≤ nNow)
    (hpast : data.nTransactionsLastCheckpoint < b.nChainTx → data.nTimeLastCheckpoint ≤ b.nTime)
    (hden : (fWork data nNow a).1 + (fWork data nNow a).2 ≠ 0) :
    ∃ ra rb,
      fdiv (fWork data nNow a).1 ((fWork data nNow a).1 + (fWork data nNow a).2) = some ra ∧
      fdiv (fWork data nNow b).1 ((fWork data nNow b).1 + (fWork data nNow b).2) = some rb ∧
      ra ≤ rb := by
  have habq : (a.nChainTx : ℚ) ≤ (b.nChainTx : ℚ) := by exact_mod_cast hab
  have hTq : (0 : ℚ) ≤ (data.nTransactionsLastCheckpoint : ℚ) := by exact_mod_cast hT
  have hE0 := expensiveAfter_nonneg _ hd nNow _ hclock
  have hEb := expensiveAfter_nonneg _ hd nNow _ htb
  have hEab := expensiveAfter_antitone _ hd nNow _ _ htab
  rw [fWork_cases] at hden
  rw [fWork_cases, fWork_cases]
  by_cases ha : a.nChainTx ≤ data.nTransactionsLastCheckpoint <;>
    by_cases hb : b.nChainTx ≤ data.nTransactionsLastCheckpoint
  · simp only [ha, if_true] at hden
    simp only [ha, hb, if_true]
    have hda : (a.nChainTx : ℚ) + (((data.nTransactionsLastCheckpoint : ℚ) - (a.nChainTx : ℚ))
        + ((nNow : ℚ) - (data.nTimeLastCheckpoint : ℚ)) / 86400 * data.fTransactionsPerDay * 5)
        = (data.nTransactionsLastCheckpoint : ℚ)
          + ((nNow : ℚ) - (data.nTimeLastCheckpoint : ℚ)) / 86400
              * data.fTransactionsPerDay * 5 := by ring
    have hdb : (b.nChainTx : ℚ) + (((data.nTransactionsLastCheckpoint : ℚ) - (b.nChainTx : ℚ))
        + ((nNow : ℚ) - (data.nTimeLastCheckpoint : ℚ)) / 86400 * data.fTransactionsPerDay * 5)
        = (data.nTransactionsLastCheckpoint : ℚ)
          + ((nNow : ℚ) - (data.nTimeLastCheckpoint : ℚ)) / 86400
              * data.fTransactionsPerDay * 5 := by ring
    rw [hda] at hden
    rw [hda, hdb]
    have hpos : (0 : ℚ) < (data.nTransactionsLastCheckpoint : ℚ)
        + ((nNow : ℚ) - (data.nTimeLastCheckpoint : ℚ)) / 86400
            * data.fTransactionsPerDay * 5 :=
      lt_of_le_of_ne (add_nonneg hTq hE0) (Ne.symm hden)
    exact ⟨_, _, fdiv_of_ne_zero _ _ hden, fdiv_of_ne_zero _ _ hden,
      div_le_div_of_nonneg_right habq hpos.le⟩
  · simp only [ha, if_true] at hden
    simp only [ha, hb, if_true, if_false]
    have haq : (a.nChainTx : ℚ) ≤ (data.nTransactionsLastCheckpoint : ℚ) := by exact_mod_cast ha
    have hbq : (data.nTransactionsLastCheckpoint : ℚ) < (b.nChainTx : ℚ) := by
      exact_mod_cast (not_le.mp hb)
    have hda : (a.nChainTx : ℚ) + (((data.nTransactionsLastCheckpoint : ℚ) - (a.nChainTx : ℚ))
        + ((nNow : ℚ) - (data.nTimeLastCheckpoint : ℚ)) / 86400 * data.fTransactionsPerDay * 5)
        = (data.nTransactionsLastCheckpoint : ℚ)
          + ((nNow : ℚ) - (data.nTimeLastCheckpoint : ℚ)) / 86400
              * data.fTransactionsPerDay * 5 := by ring
    rw [hda] at hden
    rw [hda]
    have hpos : (0 : ℚ) < (data.nTransactionsLastCheckpoint : ℚ)
        + ((nNow : ℚ) - (data.nTimeLastCheckpoint : ℚ)) / 86400
            * data.fTransactionsPerDay * 5 :=
      lt_of_le_of_ne (add_nonneg hTq hE0) (Ne.symm hden)
    have hE0b := expensiveAfter_antitone _ hd nNow _ _ (hpast (not_le.mp hb))
    have hposb : (0 : ℚ) < ((data.nTransactionsLastCheckpoint : ℚ)
        + ((b.nChainTx : ℚ) - (data.nTransactionsLastCheckpoint : ℚ)) * 5)
        + ((nNow : ℚ) - (b.nTime : ℚ)) / 86400 * data.fTransactionsPerDay * 5 := by linarith
    refine ⟨_, _, fdiv_of_ne_zero _ _ hden, fdiv_of_ne_zero _ _ hposb.ne.symm, ?_⟩
    have h1 : (a.nChainTx : ℚ) / ((data.nTransactionsLastCheckpoint : ℚ)
        + ((nNow : ℚ) - (data.nTimeLastCheckpoint : ℚ)) / 86400
            * data.fTransactionsPerDay * 5)
        ≤ (data.nTransactionsLastCheckpoint : ℚ) / ((data.nTransactionsLastCheckpoint : ℚ)
        + ((nNow : ℚ) - (data.nTimeLastCheckpoint : ℚ)) / 86400
            * data.fTransactionsPerDay * 5) :=
      div_le_div_of_nonneg_right haq hpos.le
    exact le_trans h1 (ratio_le_ratio _ _ _ _ hTq (by linarith) hEb hE0b hpos hposb)
  · omega
  · simp only [ha, hb, if_false]
    have haq : (data.nTransactionsLastCheckpoint : ℚ) < (a.nChainTx : ℚ) := by
      exact_mod_cast (not_le.mp ha)
    have hEa : (0 : ℚ) ≤ ((nNow : ℚ) - (a.nTime : ℚ)) / 86400 * data.fTransactionsPerDay * 5 :=
      le_trans hEb hEab
    have hposa : (0 : ℚ) < ((data.nTransactionsLastCheckpoint : ℚ)
        + ((a.nChainTx : ℚ) - (data.nTransactionsLastCheckpoint : ℚ)) * 5)
        + ((nNow : ℚ) - (a.nTime : ℚ)) / 86400 * data.fTransactionsPerDay * 5 := by linarith
    have hposb : (0 : ℚ) < ((data.nTransactionsLastCheckpoint : ℚ)
        + ((b.nChainTx : ℚ) - (data.nTransactionsLastCheckpoint : ℚ)) * 5)
        + ((nNow : ℚ) - (b.nTime : ℚ)) / 86400 * data.fTransactionsPerDay * 5 := by linarith
    exact ⟨_, _, fdiv_of_ne_zero _ _ hposa.ne.symm, fdiv_of_ne_zero _ _ hposb.ne.symm,
      ratio_le_ratio _ _ _ _ (by linarith) (by linarith) hEb hEab hposa hposb⟩

theorem fWork_data (nNow : Int) (p : CBlockIndex) :
    fWork data nNow p =
      if p.nChainTx ≤ 1000 then ((p.nChainTx : ℚ), 1000 - (p.nChainTx : ℚ))
      else (1000 + ((p.nChainTx : ℚ) - 1000) * 5, 0) := by
  by_cases hc : p.nChainTx ≤ 1000 <;>
    simp [fWork, data, fSigcheckVerificationFactor, hc]

theorem fWork_dataTestnet (nNow : Int) (p : CBlockIndex) :
    fWork dataTestnet nNow p =
      if p.nChainTx ≤ 0 then
        ((p.nChainTx : ℚ), -(p.nChainTx : ℚ) + ((nNow : ℚ) - 1394545201) / 86400 * 100 * 5)
      else ((p.nChainTx : ℚ) * 5, ((nNow : ℚ) - (p.nTime : ℚ)) / 86400 * 100 * 5) := by
  by_cases hc : p.nChainTx ≤ 0 <;>
    simp [fWork, dataTestnet, fSigcheckVerificationFactor, hc]

theorem Checkpoints_testnet (fCheckpoints : Bool) :
    Checkpoints { fTestNet := true, fCheckpoints := fCheckpoints } = dataTestnet := rfl

theorem Checkpoints_main (fCheckpoints : Bool) :
    Checkpoints { fTestNet := false, fCheckpoints := fCheckpoints } = data := rfl

theorem Checkpoints_nonneg (env : Env) :
    0 ≤ (Checkpoints env).nTransactionsLastCheckpoint ∧
      0 ≤ (Checkpoints env).fTransactionsPerDay := by
  obtain ⟨ft, fc⟩ := env
  cases ft
  · rw [Checkpoints_main]; exact ⟨by decide, le_rfl⟩
  · rw [Checkpoints_testnet]; exact ⟨le_rfl, by norm_num [dataTestnet]⟩

theorem GuessVerificationProgress_some (env : Env) (nNow : Int) (p : CBlockIndex) :
    GuessVerificationProgress env nNow (some p)
      = fdiv (fWork (Checkpoints env) nNow p).1
          ((fWork (Checkpoints env) nNow p).1 + (fWork (Checkpoints env) nNow p).2) := rfl

/-- C4, refuted as stated: on the test network, for a block stamped one hour ahead of the
clock, the result is 24/23, which is above 1. -/
theorem GuessVerificationProgress_above_one :
    GuessVerificationProgress { fTestNet := true, fCheckpoints := true } 1700000000
        (some { nHeight := 10, hash := 12345, nChainTx := 100, nTime := 1700003600 })
      = some (24 / 23) ∧ ¬ ((24 / 23 : ℚ) ≤ 1) := by
  constructor
  · rw [GuessVerificationProgress_some, Checkpoints_testnet, fWork_dataTestnet]
    norm_num [fdiv]
  · norm_num

/-- C4, amended (arithmetic read as exact). For a present target with a non-negative
transaction count and every clock value, GuessVerificationProgress returns a value r with
0 ≤ r ≤ 1 on the main network always, and on the test network exactly when the denominator
fWorkBefore + fWorkAfter is not zero and the target, if its count exceeds the checkpoint
count, is stamped no later than the clock. -/
theorem GuessVerificationProgress_unit_interval (env : Env) (nNow : Int) (p : CBlockIndex)
    (hn : 0 ≤ p.nChainTx) :
    (∃ r, GuessVerificationProgress env nNow (some p) = some r ∧ 0 ≤ r ∧ r ≤ 1) ↔
      (env.fTestNet = true →
        ((Checkpoints env).nTransactionsLastCheckpoint < p.nChainTx → p.nTime ≤ nNow) ∧
        (fWork (Checkpoints env) nNow p).1 + (fWork (Checkpoints env) nNow p).2 ≠ 0) := by
  rw [GuessVerificationProgress_some]
  have hnq : (0 : ℚ) ≤ (p.nChainTx : ℚ) := by exact_mod_cast hn
  obtain ⟨ft, fc⟩ := env
  cases ft
  · rw [Checkpoints_main, fWork_data]
    refine ⟨fun _ h => by simp at h, fun _ => ?_⟩
    by_cases hc : p.nChainTx ≤ 1000
    · have hcq : (p.nChainTx : ℚ) ≤ 1000 := by exact_mod_cast hc
      simp only [hc, if_true]
      exact fdiv_unit_interval _ _ hnq (by linarith) (by rw [add_sub_cancel]; norm_num)
    · have hcq : (1000 : ℚ) < (p.nChainTx : ℚ) := by exact_mod_cast (not_le.mp hc)
      simp only [hc, if_false]
      exact fdiv_unit_interval _ _ (by linarith) le_rfl (by rw [add_zero]; linarith)
  · rw [Checkpoints_testnet, fWork_dataTestnet]
    have hT : dataTestnet.nTransactionsLastCheckpoint = 0 := rfl
    rw [hT]
    by_cases hc : p.nChainTx ≤ 0
    · have h0 : p.nChainTx = 0 := le_antisymm hc hn
      have hlt : ¬ (0 < p.nChainTx) := not_lt.mpr hc
      simp only [hc, if_true]
      constructor
      · rintro ⟨r, hr, -, -⟩ -
        refine ⟨fun h => absurd h hlt, ?_⟩
        intro hz
        rw [(fdiv_eq_none_iff _ _).mpr hz] at hr
        cases hr
      · intro h
        have hden := (h trivial).2
        refine ⟨0, ?_, le_rfl, zero_le_one⟩
        rw [fdiv_of_ne_zero _ _ hden]
        simp [h0]
    · have hpos : 0 < p.nChainTx := not_le.mp hc
      have hposq : (0 : ℚ) < (p.nChainTx : ℚ) := by exact_mod_cast hpos
      simp only [hc, if_false]
      constructor
      · rintro ⟨r, hr, hr0, hr1⟩ -
        have hden : (p.nChainTx : ℚ) * 5
            + ((nNow : ℚ) - (p.nTime : ℚ)) / 86400 * 100 * 5 ≠ 0 := by
          intro hz
          rw [(fdiv_eq_none_iff _ _).mpr hz] at hr
          cases hr
        rw [fdiv_of_ne_zero _ _ hden] at hr
        have hreq : (p.nChainTx : ℚ) * 5
            / ((p.nChainTx : ℚ) * 5 + ((nNow : ℚ) - (p.nTime : ℚ)) / 86400 * 100 * 5) = r :=
          Option.some.inj hr
        have hdpos : (0 : ℚ) < (p.nChainTx : ℚ) * 5
            + ((nNow : ℚ) - (p.nTime : ℚ)) / 86400 * 100 * 5 := by
          rcases lt_or_gt_of_ne hden with hneg | hgt
          · have hlt0 := div_neg_of_pos_of_neg (by linarith : (0 : ℚ) < (p.nChainTx : ℚ) * 5) hneg
            rw [hreq] at hlt0
            linarith
          · exact hgt
        have hle : (p.nChainTx : ℚ) * 5
            ≤ (p.nChainTx : ℚ) * 5 + ((nNow : ℚ) - (p.nTime : ℚ)) / 86400 * 100 * 5 := by
          rw [← hreq, div_le_one hdpos] at hr1
          exact hr1
        refine ⟨fun _ => ?_, hden⟩
        have htq : (p.nTime : ℚ) ≤ (nNow : ℚ) := by linarith
        exact_mod_cast htq
      · intro h
        obtain ⟨ht, hden⟩ := h trivial
        have hE := expensiveAfter_nonneg 100 (by norm_num) nNow p.nTime (ht hpos)
        exact fdiv_unit_interval _ _ (by linarith) hE hden

/-- C4 amended, on the test network for a block stamped one day before the clock, and on the
main network for a block stamped one day after it. -/
theorem GuessVerificationProgress_unit_interval_witness :
    (∃ r, GuessVerificationProgress { fTestNet := true, fCheckpoints := true } 1700000000
        (some { nHeight := 10, hash := 12345, nChainTx := 100, nTime := 1699913600 }) = some r ∧
      0 ≤ r ∧ r ≤ 1) ∧
    (∃ r, GuessVerificationProgress { fTestNet := false, fCheckpoints := true } 1700000000
        (some { nHeight := 500001, hash := 67890, nChainTx := 2000, nTime := 1700086400 })
        = some r ∧ 0 ≤ r ∧ r ≤ 1) :=
  ⟨(GuessVerificationProgress_unit_interval { fTestNet := true, fCheckpoints := true }
      1700000000 { nHeight := 10, hash := 12345, nChainTx := 100, nTime := 1699913600 }
      (by decide)).mpr
      (fun _ => ⟨fun _ => by decide,
        by rw [Checkpoints_testnet, fWork_dataTestnet]; norm_num⟩),
   (GuessVerificationProgress_unit_interval { fTestNet := false, fCheckpoints := true }
      1700000000 { nHeight := 500001, hash := 67890, nChainTx := 2000, nTime := 1700086400 }
      (by decide)).mpr
      (fun h => absurd h (by decide))⟩

/-- C5, refuted as stated: on the test network, with the clock fixed, a node with 100
transactions stamped at the clock value scores 1, and a node with 200 transactions stamped
one day earlier scores 2/3. -/
theorem GuessVerificationProgress_not_monotone :
    (100 : Int) ≤ 200 ∧
      GuessVerificationProgress { fTestNet := true, fCheckpoints := true } 1700000000
          (some { nHeight := 10, hash := 12345, nChainTx := 100, nTime := 1700000000 })
        = some 1 ∧
      GuessVerificationProgress { fTestNet := true, fCheckpoints := true } 1700000000
          (some { nHeight := 20, hash := 67890, nChainTx := 200, nTime := 1699913600 })
        = some (2 / 3) ∧
      ¬ ((1 : ℚ) ≤ 2 / 3) := by
  refine ⟨by decide, ?_, ?_, by norm_num⟩
  · rw [GuessVerificationProgress_some, Checkpoints_testnet, fWork_dataTestnet]
    norm_num [fdiv]
  · rw [GuessVerificationProgress_some, Checkpoints_testnet, fWork_dataTestnet]
    norm_num [fdiv]

/-- C5, amended (arithmetic read as exact). With the clock and the active profile fixed, take
two present targets a and b with a.nChainTx ≤ b.nChainTx. On the main network both results
exist and that of a is at most that of b, for all timestamps and every clock value, pairs on
the two sides of the checkpoint count included. On the test network the same holds when the
count of a is non-negative, the denominator for a is not zero, a is stamped no later than b
if the count of a exceeds the checkpoint count, and b is stamped no later than the clock if
the count of b exceeds the checkpoint count. -/
theorem GuessVerificationProgress_monotone (env : Env) (nNow : Int) (a b : CBlockIndex)
    (hab : a.nChainTx ≤ b.nChainTx)
    (htest : env.fTestNet = true →
      0 ≤ a.nChainTx ∧
      (fWork (Checkpoints env) nNow a).1 + (fWork (Checkpoints env) nNow a).2 ≠ 0 ∧
      ((Checkpoints env).nTransactionsLastCheckpoint < a.nChainTx → a.nTime ≤ b.nTime) ∧
      ((Checkpoints env).nTransactionsLastCheckpoint < b.nChainTx → b.nTime ≤ nNow)) :
    ∃ ra rb, GuessVerificationProgress env nNow (some a) = some ra ∧
      GuessVerificationProgress env nNow (some b) = some rb ∧ ra ≤ rb := by
  rw [GuessVerificationProgress_some, GuessVerificationProgress_some]
  have habq : (a.nChainTx : ℚ) ≤ (b.nChainTx : ℚ) := by exact_mod_cast hab
  obtain ⟨ft, fc⟩ := env
  cases ft
  · rw [Checkpoints_main, fWork_data, fWork_data]
    by_cases ha : a.nChainTx ≤ 1000 <;> by_cases hb : b.nChainTx ≤ 1000
    · simp only [ha, hb, if_true]
      have hda : (a.nChainTx : ℚ) + (1000 - (a.nChainTx : ℚ)) ≠ 0 := by
        rw [add_sub_cancel]; norm_num
      have hdb : (b.nChainTx : ℚ) + (1000 - (b.nChainTx : ℚ)) ≠ 0 := by
        rw [add_sub_cancel]; norm_num
      refine ⟨_, _, fdiv_of_ne_zero _ _ hda, fdiv_of_ne_zero _ _ hdb, ?_⟩
      rw [add_sub_cancel, add_sub_cancel]
      exact div_le_div_of_nonneg_right habq (by norm_num)
    · have haq : (a.nChainTx : ℚ) ≤ 1000 := by exact_mod_cast ha
      have hbq : (1000 : ℚ) < (b.nChainTx : ℚ) := by exact_mod_cast (not_le.mp hb)
      simp only [ha, hb, if_true, if_false]
      have hda : (a.nChainTx : ℚ) + (1000 - (a.nChainTx : ℚ)) ≠ 0 := by
        rw [add_sub_cancel]; norm_num
      have hwb : (0 : ℚ) < 1000 + ((b.nChainTx : ℚ) - 1000) * 5 := by linarith
      have hdb : (1000 + ((b.nChainTx : ℚ) - 1000) * 5) + 0 ≠ 0 := by
        rw [add_zero]; exact hwb.ne.symm
      refine ⟨_, _, fdiv_of_ne_zero _ _ hda, fdiv_of_ne_zero _ _ hdb, ?_⟩
      rw [add_sub_cancel, add_zero, div_self hwb.ne.symm, div_le_one (by norm_num)]
      exact haq
    · omega
    · have haq : (1000 : ℚ) < (a.nChainTx : ℚ) := by exact_mod_cast (not_le.mp ha)
      have hbq : (1000 : ℚ) < (b.nChainTx : ℚ) := by exact_mod_cast (not_le.mp hb)
      simp only [ha, hb, if_false]
      have hwa : (0 : ℚ) < 1000 + ((a.nChainTx : ℚ) - 1000) * 5 := by linarith
      have hwb : (0 : ℚ) < 1000 + ((b.nChainTx : ℚ) - 1000) * 5 := by linarith
      have hda : (1000 + ((a.nChainTx : ℚ) - 1000) * 5) + 0 ≠ 0 := by
        rw [add_zero]; exact hwa.ne.symm
      have hdb : (1000 + ((b.nChainTx : ℚ) - 1000) * 5) + 0 ≠ 0 := by
        rw [add_zero]; exact hwb.ne.symm
      refine ⟨_, _, fdiv_of_ne_zero _ _ hda, fdiv_of_ne_zero _ _ hdb, ?_⟩
      rw [add_zero, add_zero, div_self hwa.ne.symm, div_self hwb.ne.symm]
  · obtain ⟨hna, hden, htab, htb⟩ := htest rfl
    rw [Checkpoints_testnet] at hden htab htb ⊢
    have hT : dataTestnet.nTransactionsLastCheckpoint = 0 := rfl
    rw [hT] at htab htb
    rw [fWork_dataTestnet] at hden
    rw [fWork_dataTestnet, fWork_dataTestnet]
    by_cases ha : a.nChainTx ≤ 0 <;> by_cases hb : b.nChainTx ≤ 0
    · have ha0 : a.nChainTx = 0 := le_antisymm ha hna
      have hb0 : b.nChainTx = 0 := le_antisymm hb (le_trans hna hab)
      simp only [ha, if_true] at hden
      simp only [ha, hb, if_true]
      rw [ha0] at hden ⊢
      rw [hb0]
      exact ⟨_, _, fdiv_of_ne_zero _ _ hden, fdiv_of_ne_zero _ _ hden, le_rfl⟩
    · have ha0 : a.nChainTx = 0 := le_antisymm ha hna
      have hbpos : 0 < b.nChainTx := not_le.mp hb
      have hbq : (0 : ℚ) < (b.nChainTx : ℚ) := by exact_mod_cast hbpos
      simp only [ha, if_true] at hden
      simp only [ha, hb, if_true, if_false]
      have hEb := expensiveAfter_nonneg 100 (by norm_num) nNow b.nTime (htb hbpos)
      have hposb : (0 : ℚ) < (b.nChainTx : ℚ) * 5
          + ((nNow : ℚ) - (b.nTime : ℚ)) / 86400 * 100 * 5 := by linarith
      refine ⟨_, _, fdiv_of_ne_zero _ _ hden, fdiv_of_ne_zero _ _ hposb.ne.symm, ?_⟩
      rw [ha0]
      have h2 : (0 : ℚ) ≤ (b.nChainTx : ℚ) * 5
          / ((b.nChainTx : ℚ) * 5 + ((nNow : ℚ) - (b.nTime : ℚ)) / 86400 * 100 * 5) :=
        div_nonneg (by linarith) hposb.le
      simpa using h2
    · omega
    · have hapos : 0 < a.nChainTx := not_le.mp ha
      have hbpos : 0 < b.nChainTx := not_le.mp hb
      have haq : (0 : ℚ) < (a.nChainTx : ℚ) := by exact_mod_cast hapos
      have hbq : (0 : ℚ) < (b.nChainTx : ℚ) := by exact_mod_cast hbpos
      simp only [ha, hb, if_false]
      have hEb := expensiveAfter_nonneg 100 (by norm_num) nNow b.nTime (htb hbpos)
      have hEab := expensiveAfter_antitone 100 (by norm_num) nNow a.nTime b.nTime (htab hapos)
      have hposa : (0 : ℚ) < (a.nChainTx : ℚ) * 5
          + ((nNow : ℚ) - (a.nTime : ℚ)) / 86400 * 100 * 5 := by linarith
      have hposb : (0 : ℚ) < (b.nChainTx : ℚ) * 5
          + ((nNow : ℚ) - (b.nTime : ℚ)) / 86400 * 100 * 5 := by linarith
      exact ⟨_, _, fdiv_of_ne_zero _ _ hposa.ne.symm, fdiv_of_ne_zero _ _ hposb.ne.symm,
        ratio_le_ratio _ _ _ _ (by linarith) (by linarith) hEb hEab hposa hposb⟩

/-- C5 amended, on the test network for two nodes stamped two days and one day before the
clock, and on the main network for a pair on the two sides of the checkpoint count whose
later node is stamped after the clock. -/
theorem GuessVerificationProgress_monotone_witness :
    (∃ ra rb,
      GuessVerificationProgress { fTestNet := true, fCheckpoints := true } 1700000000
          (some { nHeight := 10, hash := 12345, nChainTx := 100, nTime := 1699827200 })
        = some ra ∧
      GuessVerificationProgress { fTestNet := true, fCheckpoints := true } 1700000000
          (some { nHeight := 20, hash := 67890, nChainTx := 200, nTime := 1699913600 })
        = some rb ∧ ra ≤ rb) ∧
    (∃ ra rb,
      GuessVerificationProgress { fTestNet := false, fCheckpoints := true } 1700000000
          (some { nHeight := 400, hash := 12345, nChainTx := 500, nTime := 1400000000 })
        = some ra ∧
      GuessVerificationProgress { fTestNet := false, fCheckpoints := true } 1700000000
          (some { nHeight := 500001, hash := 67890, nChainTx := 2000, nTime := 1700086400 })
        = some rb ∧ ra ≤ rb) :=
  ⟨GuessVerificationProgress_monotone { fTestNet := true, fCheckpoints := true } 1700000000
      { nHeight := 10, hash := 12345, nChainTx := 100, nTime := 1699827200 }
      { nHeight := 20, hash := 67890, nChainTx := 200, nTime := 1699913600 }
      (by decide)
      (fun _ => ⟨by decide, by rw [Checkpoints_testnet, fWork_dataTestnet]; norm_num,
        fun _ => by decide, fun _ => by decide⟩),
   GuessVerificationProgress_monotone { fTestNet := false, fCheckpoints := true } 1700000000
      { nHeight := 400, hash := 12345, nChainTx := 500, nTime := 1400000000 }
      { nHeight := 500001, hash := 67890, nChainTx := 2000, nTime := 1700086400 }
      (by decide) (fun h => absurd h (by decide))⟩

/-- C6. For a present target with count n and timestamp t, GuessVerificationProgress is the
quotient workBefore / (workBefore + workAfter) of the two-case cost model of the
specification, taken at the active profile values T, t0 and d; the model has no clamping of a
negative time difference. The quotient has no value exactly when its divisor is zero. -/
theorem GuessVerificationProgress_eq_spec (env : Env) (nNow : Int) (p : CBlockIndex) :
    GuessVerificationProgress env nNow (some p)
      = fdiv (specWorkBefore (Checkpoints env).nTransactionsLastCheckpoint p.nChainTx)
          (specWorkBefore (Checkpoints env).nTransactionsLastCheckpoint p.nChainTx
            + specWorkAfter (Checkpoints env).nTransactionsLastCheckpoint
                (Checkpoints env).nTimeLastCheckpoint (Checkpoints env).fTransactionsPerDay
                p.nChainTx p.nTime nNow) := by
  rw [GuessVerificationProgress_some]
  by_cases hc : p.nChainTx ≤ (Checkpoints env).nTransactionsLastCheckpoint
  · simp [fWork, specWorkBefore, specWorkAfter, fSigcheckVerificationFactor, hc]
  · simp [fWork, specWorkBefore, specWorkAfter, fSigcheckVerificationFactor, hc]

/-- C10, refuted as stated: on the test network, for a node with 100 transactions stamped one
day ahead of the clock, fWorkBefore = 500 and fWorkAfter = -500, so the denominator is zero
while neither component is, and the quotient has no value. -/
theorem denominator_zero_components_nonzero :
    fWork (Checkpoints { fTestNet := true, fCheckpoints := true }) 1700000000
        { nHeight := 10, hash := 12345, nChainTx := 100, nTime := 1700086400 } = (500, -500) ∧
      (500 : ℚ) + (-500) = 0 ∧ (500 : ℚ) ≠ 0 ∧ (-500 : ℚ) ≠ 0 ∧
      GuessVerificationProgress { fTestNet := true, fCheckpoints := true } 1700000000
        (some { nHeight := 10, hash := 12345, nChainTx := 100, nTime := 1700086400 }) = none := by
  have hw : fWork (Checkpoints { fTestNet := true, fCheckpoints := true }) 1700000000
      { nHeight := 10, hash := 12345, nChainTx := 100, nTime := 1700086400 } = (500, -500) := by
    rw [Checkpoints_testnet, fWork_dataTestnet]
    norm_num
  refine ⟨hw, by norm_num, by norm_num, by norm_num, ?_⟩
  rw [GuessVerificationProgress_some, hw]
  norm_num [fdiv]

/-- C10, amended (arithmetic read as exact). Let the target be present; on the test network
let its transaction count be non-negative and, if the count exceeds the checkpoint count, let
it be stamped no later than the clock (on the main network nothing is asked). Then the
denominator fWorkBefore + fWorkAfter is zero only when fWorkBefore = 0 and fWorkAfter = 0,
and GuessVerificationProgress has no value only then: the input with both components zero
is the only one on which the ratio is undefined. -/
theorem denominator_zero_only_both_zero (env : Env) (nNow : Int) (p : CBlockIndex)
    (htest : env.fTestNet = true →
      0 ≤ p.nChainTx ∧
      ((Checkpoints env).nTransactionsLastCheckpoint < p.nChainTx → p.nTime ≤ nNow)) :
    ((fWork (Checkpoints env) nNow p).1 + (fWork (Checkpoints env) nNow p).2 = 0 ↔
        (fWork (Checkpoints env) nNow p).1 = 0 ∧ (fWork (Checkpoints env) nNow p).2 = 0) ∧
      (GuessVerificationProgress env nNow (some p) = none ↔
        (fWork (Checkpoints env) nNow p).1 = 0 ∧ (fWork (Checkpoints env) nNow p).2 = 0) := by
  have hzero : (fWork (Checkpoints env) nNow p).1 + (fWork (Checkpoints env) nNow p).2 = 0 →
      (fWork (Checkpoints env) nNow p).1 = 0 := by
    intro hden
    obtain ⟨ft, fc⟩ := env
    cases ft
    · rw [Checkpoints_main] at hden ⊢
      rw [fWork_data] at hden ⊢
      by_cases hc : p.nChainTx ≤ 1000
      · simp only [hc, if_true] at hden ⊢
        linarith
      · have hcq : (1000 : ℚ) < (p.nChainTx : ℚ) := by exact_mod_cast (not_le.mp hc)
        simp only [hc, if_false] at hden ⊢
        linarith
    · obtain ⟨hn, ht⟩ := htest rfl
      rw [Checkpoints_testnet] at hden ht ⊢
      have hT : dataTestnet.nTransactionsLastCheckpoint = 0 := rfl
      rw [hT] at ht
      rw [fWork_dataTestnet] at hden ⊢
      by_cases hc : p.nChainTx ≤ 0
      · have h0 : p.nChainTx = 0 := le_antisymm hc hn
        simp only [hc, if_true]
        simp [h0]
      · have hpos : 0 < p.nChainTx := not_le.mp hc
        have hposq : (0 : ℚ) < (p.nChainTx : ℚ) := by exact_mod_cast hpos
        have hE := expensiveAfter_nonneg 100 (by norm_num) nNow p.nTime (ht hpos)
        simp only [hc, if_false] at hden ⊢
        linarith
  have hboth : (fWork (Checkpoints env) nNow p).1 + (fWork (Checkpoints env) nNow p).2 = 0 ↔
      (fWork (Checkpoints env) nNow p).1 = 0 ∧ (fWork (Checkpoints env) nNow p).2 = 0 := by
    constructor
    · intro hden
      have h1 := hzero hden
      exact ⟨h1, by linarith⟩
    · rintro ⟨h1, h2⟩
      rw [h1, h2, add_zero]
  refine ⟨hboth, ?_⟩
  rw [GuessVerificationProgress_some, fdiv_eq_none_iff]
  exact hboth

/-- C10 amended, on the test network for the node with no transactions, at the clock value of
the last-checkpoint timestamp: the ratio has no value and both components are zero. -/
theorem denominator_zero_only_both_zero_witness :
    GuessVerificationProgress { fTestNet := true, fCheckpoints := true } 1394545201
        (some { nHeight := 0, hash := 12345, nChainTx := 0, nTime := 1394545201 }) = none ∧
      (fWork (Checkpoints { fTestNet := true, fCheckpoints := true }) 1394545201
        { nHeight := 0, hash := 12345, nChainTx := 0, nTime := 1394545201 }).1 = 0 ∧
      (fWork (Checkpoints { fTestNet := true, fCheckpoints := true }) 1394545201
        { nHeight := 0, hash := 12345, nChainTx := 0, nTime := 1394545201 }).2 = 0 :=
  have hnone : GuessVerificationProgress { fTestNet := true, fCheckpoints := true } 1394545201
      (some { nHeight := 0, hash := 12345, nChainTx := 0, nTime := 1394545201 }) = none := by
    rw [GuessVerificationProgress_some, Checkpoints_testnet, fWork_dataTestnet]
    norm_num [fdiv]
  ⟨hnone,
   (denominator_zero_only_both_zero { fTestNet := true, fCheckpoints := true } 1394545201
      { nHeight := 0, hash := 12345, nChainTx := 0, nTime := 1394545201 }
      (fun _ => ⟨by decide, fun _ => by decide⟩)).2.mp hnone⟩

/-! ## Table extrema -/

theorem mapCheckpoints_key_le (h : Int) (s : uint256)
    (hkey : MapCheckpoints.find mapCheckpoints h = some s) : h ≤ 500000 := by
  have hm := find_some_mem _ _ _ hkey
  rw [mapCheckpoints_eq] at hm
  have hall : ∀ e ∈ mapCheckpointsList, e.1 ≤ 500000 := by decide
  exact hall (h, s) hm

theorem mapCheckpointsTestnet_key_le (h : Int) (s : uint256)
    (hkey : MapCheckpoints.find mapCheckpointsTestnet h = some s) : h ≤ 0 := by
  have hm := find_some_mem _ _ _ hkey
  rw [mapCheckpointsTestnet_eq] at hm
  have hall : ∀ e ∈ mapCheckpointsTestnetList, e.1 ≤ 0 := by decide
  exact hall (h, s) hm

/-- C7. On the main network with checkpoints enabled, GetTotalBlocksEstimate returns the
maximum height key of the active checkpoint table: the result is 500000, it is a key, and
every key is at most the result. On the test network, or with checkpoints disabled, it
returns 0. -/
theorem GetTotalBlocksEstimate_max_key :
    GetTotalBlocksEstimate mainEnabled = some 500000 ∧
      (MapCheckpoints.find (Checkpoints mainEnabled).mapCheckpoints 500000).isSome = true ∧
      (∀ (h : Int) (s : uint256),
        MapCheckpoints.find (Checkpoints mainEnabled).mapCheckpoints h = some s → h ≤ 500000) ∧
      (∀ fCheckpoints : Bool,
        GetTotalBlocksEstimate { fTestNet := true, fCheckpoints := fCheckpoints } = some 0) ∧
      (∀ fTestNet : Bool,
        GetTotalBlocksEstimate { fTestNet := fTestNet, fCheckpoints := false } = some 0) := by
  refine ⟨by decide, by decide, ?_, ?_, ?_⟩
  · intro h s hkey
    exact mapCheckpoints_key_le h s hkey
  · intro fc
    simp [GetTotalBlocksEstimate]
  · intro ft
    cases ft <;> simp [GetTotalBlocksEstimate]

/-- C7, at the key 4700 of the main table: it is at most the estimate. -/
theorem GetTotalBlocksEstimate_max_key_witness :
    MapCheckpoints.find (Checkpoints mainEnabled).mapCheckpoints 4700
        = some 0x00000000bd96f25c5fe68b003e665445a94a050182e23c37022438f9caffe472 ∧
      (4700 : Int) ≤ 500000 :=
  ⟨by decide, GetTotalBlocksEstimate_max_key.2.2.1 4700
    0x00000000bd96f25c5fe68b003e665445a94a050182e23c37022438f9caffe472 (by decide)⟩

/-- C8. GetLatestHardenedCheckpoint returns the hash paired with the maximum height key of the
table selected by fTestNet, whatever the checkpoints flag: on the main network the hash stored
at height 500000, on the test network the hash stored at height 0 of the test table. -/
theorem GetLatestHardenedCheckpoint_max_entry :
    (∀ fCheckpoints : Bool,
        GetLatestHardenedCheckpoint { fTestNet := false, fCheckpoints := fCheckpoints }
          = MapCheckpoints.find mapCheckpoints 500000) ∧
      MapCheckpoints.find mapCheckpoints 500000
        = some 0x000000c8d4e43f5579c728e870198ea236daddae7f6bea62003e993ccb657ac9 ∧
      (∀ (h : Int) (s : uint256),
        MapCheckpoints.find mapCheckpoints h = some s → h ≤ 500000) ∧
      (∀ fCheckpoints : Bool,
        GetLatestHardenedCheckpoint { fTestNet := true, fCheckpoints := fCheckpoints }
          = MapCheckpoints.find mapCheckpointsTestnet 0) ∧
      MapCheckpoints.find mapCheckpointsTestnet 0
        = some 0x332865499df77f269f1fa1c640075275abc3b452c21619bfe05f757a65a46c48 ∧
      (∀ (h : Int) (s : uint256),
        MapCheckpoints.find mapCheckpointsTestnet h = some s → h ≤ 0) ∧
      (∀ fTestNet fCheckpoints1 fCheckpoints2 : Bool,
        GetLatestHardenedCheckpoint { fTestNet := fTestNet, fCheckpoints := fCheckpoints1 }
          = GetLatestHardenedCheckpoint
              { fTestNet := fTestNet, fCheckpoints := fCheckpoints2 }) := by
  refine ⟨?_, by decide, mapCheckpoints_key_le, ?_, by decide, mapCheckpointsTestnet_key_le, ?_⟩
  · intro fc
    cases fc <;> decide
  · intro fc
    cases fc <;> decide
  · intro ft fc1 fc2
    rfl

/-- C8, at the key 450000 of the main table and the key 0 of the test table: neither exceeds
the height of the reported entry. -/
theorem GetLatestHardenedCheckpoint_max_entry_witness :
    MapCheckpoints.find mapCheckpoints 450000
        = some 0x000002392b10bda48faddaf4b855ba51bcde527bf16c91131fa390ae8022fb7c ∧
      MapCheckpoints.find mapCheckpointsTestnet 0
        = some 0x332865499df77f269f1fa1c640075275abc3b452c21619bfe05f757a65a46c48 ∧
      (450000 : Int) ≤ 500000 ∧ (0 : Int) ≤ 0 :=
  ⟨by decide, by decide, GetLatestHardenedCheckpoint_max_entry.2.2.1 450000
      0x000002392b10bda48faddaf4b855ba51bcde527bf16c91131fa390ae8022fb7c (by decide),
   GetLatestHardenedCheckpoint_max_entry.2.2.2.2.2.1 0
      0x332865499df77f269f1fa1c640075275abc3b452c21619bfe05f757a65a46c48 (by decide)⟩

/-- C9. CheckBlock returns true for every height and every hash whenever the network is the
test network, and whenever checkpoints are disabled. -/
theorem CheckBlock_testnet_or_disabled (env : Env) (nHeight : Int) (hash : uint256)
    (hoff : env.fTestNet = true ∨ env.fCheckpoints = false) :
    CheckBlock env nHeight hash = true := by
  rcases hoff with ht | hc
  · simp [CheckBlock, ht]
  · simp [CheckBlock, hc]

/-- C9, at checkpoint heights with a hash that differs from the stored one: accepted on the
main network with checkpoints disabled, and on the test network with checkpoints enabled. -/
theorem CheckBlock_testnet_or_disabled_witness :
    MapCheckpoints.find mapCheckpoints 4700
        = some 0x00000000bd96f25c5fe68b003e665445a94a050182e23c37022438f9caffe472 ∧
      CheckBlock { fTestNet := false, fCheckpoints := false } 4700 12345 = true ∧
      MapCheckpoints.find mapCheckpointsTestnet 0
        = some 0x332865499df77f269f1fa1c640075275abc3b452c21619bfe05f757a65a46c48 ∧
      CheckBlock { fTestNet := true, fCheckpoints := true } 0 12345 = true :=
  ⟨by decide,
   CheckBlock_testnet_or_disabled { fTestNet := false, fCheckpoints := false } 4700 12345
     (Or.inr rfl),
   by decide,
   CheckBlock_testnet_or_disabled { fTestNet := true, fCheckpoints := true } 0 12345
     (Or.inl rfl)⟩

/-! ## Early returns -/

/-- C11. GetLastCheckpoint returns none for every block index when the network is the test
network, and when checkpoints are disabled. -/
theorem GetLastCheckpoint_testnet_or_disabled (env : Env) (mapBlockIndex : BlockIndexMap)
    (hoff : env.fTestNet = true ∨ env.fCheckpoints = false) :
    GetLastCheckpoint env mapBlockIndex = none := by
  rcases hoff with ht | hc
  · simp [GetLastCheckpoint, ht]
  · simp [GetLastCheckpoint, hc]

/-- C11, on indexes that hold a checkpoint block of the active table: none on the main
network with checkpoints disabled, and none on the test network. -/
theorem GetLastCheckpoint_testnet_or_disabled_witness :
    (BlockIndexMap.find exampleBlockIndex
        0x00000e42c6e6ec223410e7916d11d9483e24933594aed7d326338cd32381f334).isSome = true ∧
      MapCheckpoints.find mapCheckpoints 1
        = some 0x00000e42c6e6ec223410e7916d11d9483e24933594aed7d326338cd32381f334 ∧
      GetLastCheckpoint { fTestNet := false, fCheckpoints := false } exampleBlockIndex = none ∧
      (BlockIndexMap.find testnetBlockIndex
        0x332865499df77f269f1fa1c640075275abc3b452c21619bfe05f757a65a46c48).isSome = true ∧
      MapCheckpoints.find mapCheckpointsTestnet 0
        = some 0x332865499df77f269f1fa1c640075275abc3b452c21619bfe05f757a65a46c48 ∧
      GetLastCheckpoint { fTestNet := true, fCheckpoints := true } testnetBlockIndex = none :=
  ⟨by decide, by decide,
   GetLastCheckpoint_testnet_or_disabled { fTestNet := false, fCheckpoints := false }
     exampleBlockIndex (Or.inr rfl),
   by decide, by decide,
   GetLastCheckpoint_testnet_or_disabled { fTestNet := true, fCheckpoints := true }
     testnetBlockIndex (Or.inl rfl)⟩

/-- C12. GuessVerificationProgress returns 0 for an absent target, for every clock value and
on either network. -/
theorem GuessVerificationProgress_null (env : Env) (nNow : Int) :
    GuessVerificationProgress env nNow none = some 0 := by
  simp [GuessVerificationProgress, GuessVerificationProgressWith]

/-! ## The initializers -/

/-- C13, the code at the initializer of data: the timestamp member is 1507133860, the value
1000.0 is held by nTransactionsLastCheckpoint, and fTransactionsPerDay is 0, not 1000; so on
the main network a node past the checkpoint count scores 1 whatever the clock says. -/
theorem data_members :
    data.nTimeLastCheckpoint = 1507133860 ∧ data.nTransactionsLastCheckpoint = 1000 ∧
      data.fTransactionsPerDay = 0 ∧ data.fTransactionsPerDay ≠ 1000 ∧
      GuessVerificationProgress { fTestNet := false, fCheckpoints := true } 1700000000
        (some { nHeight := 500001, hash := 67890, nChainTx := 2000, nTime := 1507140000 })
        = some 1 := by
  refine ⟨rfl, rfl, rfl, by norm_num [data], ?_⟩
  rw [GuessVerificationProgress_some, Checkpoints_main, fWork_data]
  norm_num [fdiv]

theorem insert_last (m : MapCheckpoints) (k : Int) (v : uint256)
    (hlt : ∀ e ∈ m, e.1 < k) : MapCheckpoints.insert m k v = m ++ [(k, v)] := by
  induction m with
  | nil => rfl
  | cons e rest ih =>
    obtain ⟨k0, v0⟩ := e
    have h0 : k0 < k := hlt (k0, v0) (List.mem_cons_self _ _)
    have h1 : ¬ k < k0 := by omega
    have h2 : ¬ k = k0 := by omega
    have hrest : ∀ e ∈ rest, e.1 < k := fun e he => hlt e (List.mem_cons_of_mem _ he)
    simp [MapCheckpoints.insert, h1, h2, ih hrest]

theorem foldl_insert_ascending (l : List (Int × uint256)) (acc : MapCheckpoints)
    (hasc : (acc ++ l).Pairwise (fun a b => a.1 < b.1)) :
    l.foldl (fun m e => MapCheckpoints.insert m e.1 e.2) acc = acc ++ l := by
  induction l generalizing acc with
  | nil => simp
  | cons e rest ih =>
    have hlt : ∀ a ∈ acc, a.1 < e.1 := by
      intro a ha
      exact (List.pairwise_append.mp hasc).2.2 a ha e (List.mem_cons_self _ _)
    have hstep : MapCheckpoints.insert acc e.1 e.2 = acc ++ [e] := insert_last acc e.1 e.2 hlt
    have hasc2 : ((acc ++ [e]) ++ rest).Pairwise (fun a b => a.1 < b.1) := by
      simpa [List.append_assoc] using hasc
    rw [List.foldl_cons, hstep, ih (acc ++ [e]) hasc2]
    simp [List.append_assoc]

theorem map_list_of_ascending (l : List (Int × uint256))
    (hasc : l.Pairwise (fun a b => a.1 < b.1)) : map_list_of l = l := by
  have h := foldl_insert_ascending l [] (by simpa using hasc)
  simpa [map_list_of] using h

/-- C14. In both shipped tables (16 pairs for the main network, 1 for the test network) the
heights in source order are non-negative and strictly ascending; the map built from each list
is therefore the list itself, with one entry per height and no pair dropped. -/
theorem shipped_tables_ascending :
    mapCheckpointsList.length = 16 ∧ mapCheckpointsTestnetList.length = 1 ∧
      mapCheckpointsList.Pairwise (fun a b => a.1 < b.1) ∧
      mapCheckpointsTestnetList.Pairwise (fun a b => a.1 < b.1) ∧
      (∀ e ∈ mapCheckpointsList, 0 ≤ e.1) ∧ (∀ e ∈ mapCheckpointsTestnetList, 0 ≤ e.1) ∧
      mapCheckpoints = mapCheckpointsList ∧ mapCheckpointsTestnet = mapCheckpointsTestnetList ∧
      mapCheckpoints.length = 16 ∧ mapCheckpointsTestnet.length = 1 ∧
      (mapCheckpoints.map (fun e => e.1)).Nodup ∧
      (mapCheckpointsTestnet.map (fun e => e.1)).Nodup := by
  have hmain : mapCheckpointsList.Pairwise (fun a b => a.1 < b.1) := by decide
  have htest : mapCheckpointsTestnetList.Pairwise (fun a b => a.1 < b.1) := by decide
  have hm : mapCheckpoints = mapCheckpointsList := map_list_of_ascending _ hmain
  have ht : mapCheckpointsTestnet = mapCheckpointsTestnetList := map_list_of_ascending _ htest
  have hlen : mapCheckpointsList.length = 16 := rfl
  have hlent : mapCheckpointsTestnetList.length = 1 := rfl
  have hnodup : ∀ l : List (Int × uint256), l.Pairwise (fun a b => a.1 < b.1) →
      (l.map (fun e => e.1)).Nodup := by
    intro l hl
    rw [List.Nodup, List.pairwise_map]
    exact hl.imp (fun h => ne_of_lt h)
  refine ⟨hlen, hlent, hmain, htest, by decide, by decide, hm, ht, ?_, ?_, ?_, ?_⟩
  · rw [hm]; exact hlen
  · rw [ht]; exact hlent
  · rw [hm]; exact hnodup _ hmain
  · rw [ht]; exact hnodup _ htest

/-- C14, at the pair of height 4700 of the main list and the pair of the test list: the
heights are non-negative. -/
theorem shipped_tables_ascending_witness :
    ((4700 : Int), (0x00000000bd96f25c5fe68b003e665445a94a050182e23c37022438f9caffe472 : uint256))
        ∈ mapCheckpointsList ∧ (0 : Int) ≤ 4700 ∧
      ((0 : Int), (0x332865499df77f269f1fa1c640075275abc3b452c21619bfe05f757a65a46c48 : uint256))
        ∈ mapCheckpointsTestnetList ∧ (0 : Int) ≤ 0 :=
  ⟨by decide,
   shipped_tables_ascending.2.2.2.2.1
     (4700, 0x00000000bd96f25c5fe68b003e665445a94a050182e23c37022438f9caffe472) (by decide),
   by decide,
   shipped_tables_ascending.2.2.2.2.2.1
     (0, 0x332865499df77f269f1fa1c640075275abc3b452c21619bfe05f757a65a46c48) (by decide)⟩

/-! ## The estimate on the main network and for arbitrary profiles -/

/-- C15. On the main network, for a present target with transaction count n, every target
timestamp and every clock value, GuessVerificationProgress is n / 1000 when n ≤ 1000 and 1
when n > 1000 (for every n, the non-negative ones included): the denominator is never zero and
the result changes with neither the clock nor the timestamp, because data holds
nTransactionsLastCheckpoint = 1000 and fTransactionsPerDay = 0. -/
theorem GuessVerificationProgress_main_network (fCheckpoints : Bool) (nNow : Int)
    (p : CBlockIndex) :
    GuessVerificationProgress { fTestNet := false, fCheckpoints := fCheckpoints } nNow (some p)
        = some (if p.nChainTx ≤ 1000 then (p.nChainTx : ℚ) / 1000 else 1) ∧
      (fWork (Checkpoints { fTestNet := false, fCheckpoints := fCheckpoints }) nNow p).1
        + (fWork (Checkpoints { fTestNet := false, fCheckpoints := fCheckpoints }) nNow p).2
        ≠ 0 ∧
      (∀ (nNow2 nTime2 : Int),
        GuessVerificationProgress { fTestNet := false, fCheckpoints := fCheckpoints } nNow2
            (some { p with nTime := nTime2 })
          = GuessVerificationProgress { fTestNet := false, fCheckpoints := fCheckpoints } nNow
              (some p)) ∧
      data.nTransactionsLastCheckpoint = 1000 ∧ data.fTransactionsPerDay = 0 := by
  have hval : ∀ (now : Int) (q : CBlockIndex),
      (fWork data now q).1 + (fWork data now q).2 ≠ 0 ∧
      fdiv (fWork data now q).1 ((fWork data now q).1 + (fWork data now q).2)
        = some (if q.nChainTx ≤ 1000 then (q.nChainTx : ℚ) / 1000 else 1) := by
    intro now q
    rw [fWork_data]
    by_cases hc : q.nChainTx ≤ 1000
    · simp only [hc, if_true]
      have hden : (q.nChainTx : ℚ) + (1000 - (q.nChainTx : ℚ)) = 1000 := by ring
      rw [hden]
      exact ⟨by norm_num, fdiv_of_ne_zero _ _ (by norm_num)⟩
    · have hcq : (1000 : ℚ) < (q.nChainTx : ℚ) := by exact_mod_cast (not_le.mp hc)
      simp only [hc, if_false]
      have hpos : (0 : ℚ) < 1000 + ((q.nChainTx : ℚ) - 1000) * 5 := by linarith
      rw [add_zero]
      refine ⟨hpos.ne.symm, ?_⟩
      rw [fdiv_of_ne_zero _ _ hpos.ne.symm, div_self hpos.ne.symm]
  refine ⟨?_, ?_, ?_, rfl, rfl⟩
  · rw [GuessVerificationProgress_some, Checkpoints_main]
    exact (hval nNow p).2
  · rw [Checkpoints_main]
    exact (hval nNow p).1
  · intro nNow2 nTime2
    rw [GuessVerificationProgress_some, GuessVerificationProgress_some, Checkpoints_main,
      (hval nNow2 _).2, (hval nNow p).2]

/-- C16. For every profile with nTransactionsLastCheckpoint ≥ 0 and fTransactionsPerDay ≥ 0,
every present target with a non-negative transaction count, and every clock value not earlier
than the last-checkpoint timestamp of the profile nor than the timestamp of the target, the
estimate computed from that profile is a value r with 0 ≤ r ≤ 1 whenever the denominator
fWorkBefore + fWorkAfter is not zero. -/
theorem GuessVerificationProgressWith_unit_interval (data : CCheckpointData) (nNow : Int)
    (p : CBlockIndex)
    (hT : 0 ≤ data.nTransactionsLastCheckpoint) (hd : 0 ≤ data.fTransactionsPerDay)
    (hn : 0 ≤ p.nChainTx) (hclock : data.nTimeLastCheckpoint ≤ nNow) (ht : p.nTime ≤ nNow)
    (hden : (fWork data nNow p).1 + (fWork data nNow p).2 ≠ 0) :
    ∃ r, GuessVerificationProgressWith data nNow (some p) = some r ∧ 0 ≤ r ∧ r ≤ 1 := by
  have hw := fWork_nonneg data hT hd nNow p hn hclock ht
  have hr := fdiv_unit_interval _ _ hw.1 hw.2 hden
  simpa [GuessVerificationProgressWith] using hr

/-- C16, at the profile with 125908 transactions up to the checkpoint and 1000 per day, for a
node past the checkpoint count. -/
theorem GuessVerificationProgressWith_unit_interval_witness :
    ∃ r, GuessVerificationProgressWith commentedData 1700000000
        (some { nHeight := 600000, hash := 67890, nChainTx := 200000, nTime := 1600000000 })
        = some r ∧ 0 ≤ r ∧ r ≤ 1 :=
  GuessVerificationProgressWith_unit_interval commentedData 1700000000
    { nHeight := 600000, hash := 67890, nChainTx := 200000, nTime := 1600000000 }
    (by decide) (by norm_num [commentedData]) (by decide) (by decide) (by decide)
    (by rw [fWork_cases]; norm_num [commentedData])

/-! ## Consistency of the table with the functions -/

theorem mapCheckpointsTestnetList_ascending :
    mapCheckpointsTestnetList.Pairwise (fun a b => a.1 < b.1) := by decide

theorem Checkpoints_mapCheckpoints_ascending (env : Env) :
    (Checkpoints env).mapCheckpoints.Pairwise (fun a b => a.1 < b.1) := by
  obtain ⟨ft, fc⟩ := env
  cases ft
  · rw [Checkpoints_main]
    show mapCheckpoints.Pairwise (fun a b => a.1 < b.1)
    rw [mapCheckpoints_eq]
    exact mapCheckpointsList_ascending
  · rw [Checkpoints_testnet]
    show mapCheckpointsTestnet.Pairwise (fun a b => a.1 < b.1)
    rw [mapCheckpointsTestnet_eq]
    exact mapCheckpointsTestnetList_ascending

/-- C17. Both checkpoint tables are non-empty, so for either network mode and either value of
the checkpoints flag rbegin() denotes an entry, and GetTotalBlocksEstimate and
GetLatestHardenedCheckpoint both produce a value. -/
theorem rbegin_always_defined (env : Env) :
    mapCheckpoints ≠ [] ∧ mapCheckpointsTestnet ≠ [] ∧
      (MapCheckpoints.rbegin (Checkpoints env).mapCheckpoints).isSome = true ∧
      (GetTotalBlocksEstimate env).isSome = true ∧
      (GetLatestHardenedCheckpoint env).isSome = true := by
  obtain ⟨ft, fc⟩ := env
  cases ft <;> cases fc <;> decide

/-- C18. On the main network with checkpoints enabled, CheckBlock accepts every entry
(h, x) of the main checkpoint table; in particular it accepts the height returned by
GetTotalBlocksEstimate together with the hash returned by GetLatestHardenedCheckpoint. -/
theorem CheckBlock_accepts_table :
    (∀ e ∈ mapCheckpoints, CheckBlock mainEnabled e.1 e.2 = true) ∧
      ∃ (h : Int) (x : uint256), GetTotalBlocksEstimate mainEnabled = some h ∧
        GetLatestHardenedCheckpoint mainEnabled = some x ∧
        CheckBlock mainEnabled h x = true := by
  have hentries : ∀ e ∈ mapCheckpoints, CheckBlock mainEnabled e.1 e.2 = true := by
    intro e he
    have hasc := Checkpoints_mapCheckpoints_ascending mainEnabled
    have hmem : (e.1, e.2) ∈ (Checkpoints mainEnabled).mapCheckpoints := he
    have hfind := mem_find_of_ascending _ _ _ hasc hmem
    simp [CheckBlock, mainEnabled] at hfind ⊢
    simp [hfind]
  refine ⟨hentries, 500000,
    0x000000c8d4e43f5579c728e870198ea236daddae7f6bea62003e993ccb657ac9, by decide, by decide, ?_⟩
  exact hentries (500000, 0x000000c8d4e43f5579c728e870198ea236daddae7f6bea62003e993ccb657ac9)
    (by decide)

/-- C18, at the entry of height 4700. -/
theorem CheckBlock_accepts_table_witness :
    ((4700 : Int), (0x00000000bd96f25c5fe68b003e665445a94a050182e23c37022438f9caffe472 : uint256))
        ∈ mapCheckpoints ∧
      CheckBlock mainEnabled 4700
        0x00000000bd96f25c5fe68b003e665445a94a050182e23c37022438f9caffe472 = true :=
  ⟨by decide,
   CheckBlock_accepts_table.1
     (4700, 0x00000000bd96f25c5fe68b003e665445a94a050182e23c37022438f9caffe472) (by decide)⟩

theorem lastCheckpointLoop_congr (entries : List (Int × uint256))
    (index1 index2 : BlockIndexMap)
    (hagree : ∀ e ∈ entries, BlockIndexMap.find index1 e.2 = BlockIndexMap.find index2 e.2) :
    lastCheckpointLoop entries index1 = lastCheckpointLoop entries index2 := by
  induction entries with
  | nil => rfl
  | cons i rest ih =>
    have hi := hagree i (List.mem_cons_self _ _)
    have hrest : ∀ e ∈ rest,
        BlockIndexMap.find index1 e.2 = BlockIndexMap.find index2 e.2 :=
      fun e he => hagree e (List.mem_cons_of_mem _ he)
    simp only [lastCheckpointLoop, hi, ih hrest]

/-- C19. GetLastCheckpoint depends on the block index only through the checkpoint hashes: two
indexes that give the same lookup result (the same membership and the same node) for every
hash of the active checkpoint table give the same result, whatever else they hold. -/
theorem GetLastCheckpoint_index_restriction (env : Env) (index1 index2 : BlockIndexMap)
    (hagree : ∀ e ∈ (Checkpoints env).mapCheckpoints,
      BlockIndexMap.find index1 e.2 = BlockIndexMap.find index2 e.2) :
    GetLastCheckpoint env index1 = GetLastCheckpoint env index2 := by
  unfold GetLastCheckpoint
  split
  · rfl
  · split
    · rfl
    · exact lastCheckpointLoop_congr _ _ _
        (fun e he => hagree e (List.mem_reverse.mp he))

/-- C19, on two indexes that hold the checkpoint blocks of heights 0 and 1 and differ in the
other blocks and in their order: both give the node of height 1. -/
theorem GetLastCheckpoint_index_restriction_witness :
    exampleBlockIndex ≠ crowdedBlockIndex ∧
      GetLastCheckpoint mainEnabled exampleBlockIndex
        = GetLastCheckpoint mainEnabled crowdedBlockIndex ∧
      GetLastCheckpoint mainEnabled crowdedBlockIndex
        = some { nHeight := 1
                 hash := 0x00000e42c6e6ec223410e7916d11d9483e24933594aed7d326338cd32381f334
                 nChainTx := 2, nTime := 1387808000 } :=
  ⟨by decide,
   GetLastCheckpoint_index_restriction mainEnabled exampleBlockIndex crowdedBlockIndex
     (by decide),
   by decide⟩

end Checkpoints
